import Mathlib

/-!
Verification of the AutoPhone dispatcher (`autophone.py`) against its
natural-language specification.  The Python source is shallowly embedded:
pure computations become Lean functions, the stateful worker loop becomes an
explicit step function over a worker-state record, queue operations return
`Except` values where the source can raise, and external collaborators
(device driver, SUT socket, test plugins) are modelled as boolean-valued
environment functions supplied to each step.
-/

namespace AutoPhoneModel

/-- Worker-visible states.  `autophone.py` emits `IDLE`, `INSTALLING`,
`DISCONNECTED` and `REBOOTING`; the spec's data model also lists `TESTING`
and `DISABLED`, which we include so that statements about them can be made. -/
inductive PState where
  | idle
  | installing
  | testing
  | rebooting
  | disconnected
  | disabledState
deriving Repr, DecidableEq

/-- A job dictionary as produced by `AutoPhone.build_job` and consumed by
`PhoneWorker.loop` (`job['buildurl']`, `job['blddate']`,
`job['androidprocname']`, ...). -/
structure Job where
  buildurl : String
  blddate : String
  revision : String
  androidprocname : String
  version : String
  bldtype : String
deriving Repr, DecidableEq

/-- Modelled from the spec: `phonetest.PhoneTestMessage` is imported by
`autophone.py` but its module is not part of this source tree; the spec's
StatusMessage record is `{phone_id, state, timestamp, build, detail}`. -/
structure StatusMsg where
  phoneid : String
  status : PState
  timestamp : Nat
  build : Option String
  detail : Option String
deriving Repr, DecidableEq

/-- The per-worker view held on the coordinator side:
`last_status_msg`, `first_status_of_type`, `last_status_of_previous_type`
(fields of `PhoneWorker`, mutated by `PhoneWorker.process_msg`). -/
structure WorkerView where
  last : Option StatusMsg
  firstOfType : Option StatusMsg
  lastOfPrev : Option StatusMsg
deriving Repr, DecidableEq

/-- The initial view: all three fields are `None` in `PhoneWorker.__init__`. -/
def initView : WorkerView :=
  { last := none, firstOfType := none, lastOfPrev := none }

/-- `PhoneWorker.process_msg`:
`if not self.last_status_msg or msg.status != self.last_status_msg.status:`
set `last_status_of_previous_type` to the old `last_status_msg` and
`first_status_of_type` to `msg`; in all cases set `last_status_msg := msg`. -/
def process_msg (v : WorkerView) (m : StatusMsg) : WorkerView :=
  match v.last with
  | none => { last := some m, firstOfType := some m, lastOfPrev := v.last }
  | some l =>
    if m.status != l.status then
      { last := some m, firstOfType := some m, lastOfPrev := some l }
    else
      { v with last := some m }

/-- The spec's view-consistency predicate, as a decidable check:
whenever `last` is non-empty, `first_of_current_type` carries the same state
and `last_of_previous_type` (when non-empty) carries a different state. -/
def viewConsistent (v : WorkerView) : Bool :=
  match v.last with
  | none => true
  | some l =>
    (match v.firstOfType with
     | none => false
     | some f => f.status == l.status) &&
    (match v.lastOfPrev with
     | none => true
     | some p => p.status != l.status)

/-- The `status` command's per-worker duration computation in
`AutoPhone.route_cmd`: when `last_status_msg` is set it prints
`now - w.first_status_of_type.timestamp`; an empty `first_status_of_type`
there would be a dereference of an absent value, modelled as `none`. -/
def statusDuration (now : Nat) (v : WorkerView) : Option Nat :=
  match v.last with
  | none => none
  | some _ =>
    match v.firstOfType with
    | none => none
    | some f => some (now - f.timestamp)

theorem process_msg_consistent (v : WorkerView) (m : StatusMsg)
    (h : viewConsistent v = true) : viewConsistent (process_msg v m) = true := by
  unfold process_msg
  cases hv : v.last with
  | none => simp [viewConsistent]
  | some l =>
    by_cases hs : m.status = l.status
    · simp only [hs, bne_self_eq_false, Bool.false_eq_true, if_false]
      unfold viewConsistent at h ⊢
      rw [hv] at h
      simp only [hv]
      rw [hs]
      exact h
    · simp only [if_pos (bne_iff_ne.mpr hs)]
      unfold viewConsistent
      simp only [beq_self_eq_true, Bool.true_and]
      exact bne_iff_ne.mpr (fun hle => hs hle.symm)

theorem foldl_process_msg_consistent (msgs : List StatusMsg) :
    ∀ v : WorkerView, viewConsistent v = true →
      viewConsistent (msgs.foldl process_msg v) = true := by
  induction msgs with
  | nil => intro v h; exact h
  | cons m rest ih =>
    intro v h
    exact ih (process_msg v m) (process_msg_consistent v m h)

/-- C3: for every sequence of status messages fed to `process_msg` starting
from the initial all-empty view, whenever `last` is non-empty the view
satisfies `first_of_current_type.state = last.state`, and when
`last_of_previous_type` is non-empty its state differs from `last.state`. -/
theorem view_consistency (msgs : List StatusMsg) :
    viewConsistent (msgs.foldl process_msg initView) = true :=
  foldl_process_msg_consistent msgs initView rfl

/-- `first_status_of_type` is populated whenever `last_status_msg` is, as a
decidable check. -/
def viewDefined (v : WorkerView) : Bool :=
  !v.last.isSome || v.firstOfType.isSome

theorem process_msg_defined (v : WorkerView) (m : StatusMsg)
    (h : viewDefined v = true) : viewDefined (process_msg v m) = true := by
  unfold process_msg
  cases hv : v.last with
  | none => simp [viewDefined]
  | some l =>
    by_cases hs : m.status = l.status
    · simp only [hs, bne_self_eq_false, Bool.false_eq_true, if_false]
      unfold viewDefined at h ⊢
      rw [hv] at h
      simpa using h
    · simp [if_pos (bne_iff_ne.mpr hs), viewDefined, hs]

theorem foldl_process_msg_defined (msgs : List StatusMsg) :
    ∀ v : WorkerView, viewDefined v = true →
      viewDefined (msgs.foldl process_msg v) = true := by
  induction msgs with
  | nil => intro v h; exact h
  | cons m rest ih =>
    intro v h
    exact ih (process_msg v m) (process_msg_defined v m h)

/-- C10: after any sequence of `process_msg` calls starting from the initial
view, the `status` command's duration computation
(`now - first_status_of_type.timestamp`) is defined exactly when
`last_status_msg` is non-empty, so it never dereferences an absent value. -/
theorem status_duration_defined (msgs : List StatusMsg) (now : Nat) :
    (statusDuration now (msgs.foldl process_msg initView)).isSome =
      (msgs.foldl process_msg initView).last.isSome := by
  have h := foldl_process_msg_defined msgs initView rfl
  unfold viewDefined at h
  unfold statusDuration
  cases hl : (msgs.foldl process_msg initView).last with
  | none => simp
  | some l =>
    rw [hl] at h
    simp only [Option.isSome_some, Bool.not_true, Bool.false_or] at h
    cases hf : (msgs.foldl process_msg initView).firstOfType with
    | none => rw [hf] at h; simp at h
    | some f => simp

/-! ## Bounded queues and enqueue operations

`multiprocessing.Queue(maxsize)` is full when `maxsize > 0` and the queue
holds at least `maxsize` items; `put_nowait` on a full queue raises
`Queue.Full`.  `PhoneWorker.__init__` creates `job_queue` with no `maxsize`
argument, i.e. `maxsize = 0` (unbounded). -/

/-- An item of the worker command queue: `('job', job)` (whose payload may be
falsy, modelled `none`), `('reboot', None)`, or the `None` shutdown
sentinel enqueued by `PhoneWorker.stop`. -/
inductive QItem where
  | jobItem (j : Option Job)
  | rebootItem
  | sentinel
deriving Repr, DecidableEq

structure MPQueue (α : Type) where
  maxsize : Nat
  items : List α
deriving Repr, DecidableEq

def MPQueue.full (q : MPQueue α) : Bool :=
  q.maxsize != 0 && decide (q.maxsize ≤ q.items.length)

/-- `put_nowait`: non-blocking; raises `Queue.Full` (modelled `Except.error`)
when the queue is full, otherwise appends. -/
def put_nowait (q : MPQueue α) (x : α) : Except Unit (MPQueue α) :=
  if q.full then Except.error ()
  else Except.ok { q with items := q.items ++ [x] }

/-- `PhoneWorker.add_job`: `self.job_queue.put_nowait(('job', job))` with no
exception handler, so a `Queue.Full` raised by `put_nowait` propagates. -/
def add_job (q : MPQueue QItem) (j : Job) : Except Unit (MPQueue QItem) :=
  put_nowait q (QItem.jobItem (some j))

/-- `PhoneWorker.reboot`: `self.job_queue.put_nowait(('reboot', None))`,
likewise without a handler. -/
def reboot (q : MPQueue QItem) : Except Unit (MPQueue QItem) :=
  put_nowait q QItem.rebootItem

/-- `PhoneWorker.status_update`: `put_nowait` wrapped in
`try ... except Queue.Full: logging.warn(...)`; returns the (possibly
unchanged) queue and whether the full-queue warning was logged. -/
def status_update (q : MPQueue StatusMsg) (m : StatusMsg) :
    MPQueue StatusMsg × Bool :=
  match put_nowait q m with
  | Except.ok q2 => (q2, false)
  | Except.error _ => (q, true)

/-! ## The recovery protocol (`PhoneWorker.recover_phone`)

The SUT socket is modelled by `opens : Nat → Nat → Bool`, giving for each
reboot attempt (1-based) and each probe time (seconds since that reboot)
whether `DeviceManagerSUT(...)._sock` is open. -/

def max_reboot_wait_seconds : Nat := 300

def max_reboot_attempts : Nat := 3

/-- The inner wait loop of `recover_phone`: starting right after a reboot
(`t = 0`), while `now ≤ max_time` probe the SUT socket and, if it is not
open, sleep 5 seconds; returns whether the socket opened within the wait. -/
def waitForSut (opens : Nat → Bool) (t : Nat) : Bool :=
  if h : t ≤ max_reboot_wait_seconds then
    if opens t then true
    else waitForSut opens (t + 5)
  else false
termination_by max_reboot_wait_seconds + 1 - t
decreasing_by simp_wf; omega

/-- The body of the email sent on give-up, from `recover_phone`. -/
def giveUpBody (phoneid : String) (reboots : Nat) : String :=
  "Hello, this is AutoPhone. Phone " ++ phoneid ++ " was rebooted " ++
    toString reboots ++ " times. We gave up on it. Sorry about that."

/-- The result of a `recover_phone` call: how many reboots were performed,
which emails (subject, body) were sent, and the final `disabled` flag. -/
structure RecoverResult where
  reboots : Nat
  emails : List (String × String)
  disabled : Bool
deriving Repr, DecidableEq

/-- The `while not self.disabled` loop of `recover_phone`: fewer than
`max_reboot_attempts` reboots so far means reboot again and wait for the
socket (returning on success); otherwise email and set `disabled`. -/
def recoverLoop (phoneid : String) (opens : Nat → Nat → Bool)
    (disabled : Bool) (reboots : Nat) (emails : List (String × String)) :
    RecoverResult :=
  if disabled then { reboots := reboots, emails := emails, disabled := disabled }
  else if h : reboots < max_reboot_attempts then
    if waitForSut (opens (reboots + 1)) 0 then
      { reboots := reboots + 1, emails := emails, disabled := disabled }
    else
      recoverLoop phoneid opens disabled (reboots + 1) emails
  else
    { reboots := reboots,
      emails := emails ++ [("Phone " ++ phoneid ++ " disabled",
        giveUpBody phoneid reboots)],
      disabled := true }
termination_by max_reboot_attempts - reboots
decreasing_by simp_wf; omega

/-- `PhoneWorker.recover_phone`, entered with `reboots = 0`. -/
def recover_phone (phoneid : String) (opens : Nat → Nat → Bool)
    (disabled : Bool) : RecoverResult :=
  recoverLoop phoneid opens disabled 0 []

theorem waitForSut_never (f : Nat → Bool) (hf : ∀ u, f u = false) (t : Nat) :
    waitForSut f t = false := by
  unfold waitForSut
  split
  · rw [hf]
    simp only [Bool.false_eq_true, if_false]
    exact waitForSut_never f hf (t + 5)
  · rfl
termination_by max_reboot_wait_seconds + 1 - t
decreasing_by simp_wf; omega

/-- C2: if the worker is not already disabled and the SUT socket never opens
during a wait after any reboot, then `recover_phone` performs exactly 3
reboot attempts (`max_reboot_attempts = 3`, each wait bounded by
`max_reboot_wait_seconds = 300` with 5-second probe steps), sends exactly
one email whose subject is "Phone {phone_id} disabled", sets the disabled
flag and returns. -/
theorem recover_phone_gives_up (phoneid : String) (opens : Nat → Nat → Bool)
    (h : ∀ a t, opens a t = false) :
    recover_phone phoneid opens false =
      { reboots := 3,
        emails := [("Phone " ++ phoneid ++ " disabled", giveUpBody phoneid 3)],
        disabled := true } ∧
    max_reboot_attempts = 3 ∧ max_reboot_wait_seconds = 300 := by
  have hw : ∀ r, waitForSut (opens r) 0 = false :=
    fun r => waitForSut_never (opens r) (h r) 0
  refine ⟨?_, rfl, rfl⟩
  unfold recover_phone
  rw [recoverLoop, recoverLoop, recoverLoop, recoverLoop]
  simp [hw, max_reboot_attempts]

/-- Concrete instantiation of `recover_phone_gives_up` at a socket that
never opens. -/
theorem recover_phone_gives_up_witness :
    (∀ a t, (fun (_ _ : Nat) => false) a t = false) ∧
    recover_phone "p1" (fun _ _ => false) false =
      { reboots := 3,
        emails := [("Phone p1 disabled", giveUpBody "p1" 3)],
        disabled := true } :=
  ⟨fun _ _ => rfl,
   (recover_phone_gives_up "p1" (fun _ _ => false) (fun _ _ => rfl)).1⟩

/-! ## The worker main loop (`PhoneWorker.loop`)

One iteration of the `while True` loop is a pure step function.  The
dequeue outcome is a `WCommand`; the device driver, the installer and the
test plugins are boolean environment functions. -/

/-- What `job_queue.get(timeout=60)` produced this iteration: `Queue.Empty`
(the heartbeat path), the `None` sentinel, a `('job', job)` command (whose
payload may be falsy) or a `('reboot', None)` command. -/
inductive WCommand where
  | timeout
  | sentinelCmd
  | jobCmd (j : Option Job)
  | rebootCmd
deriving Repr, DecidableEq

/-- The external collaborators of one loop iteration:
`adbResponds` is the result of `androidutils.run_adb('shell', ['ps'], ...)`;
`installOk` the result of `androidutils.install_build_adb(...)`;
`throwsAt i a` whether `t.runjob(job)` raises for test `i` on attempt `a`
(1-based); `sutOpens` the SUT-socket behaviour seen by `recover_phone`;
`numTests` the length of `self.tests`. -/
structure WorkerEnv where
  adbResponds : Bool
  installOk : Bool
  throwsAt : Nat → Nat → Bool
  sutOpens : Nat → Nat → Bool
  numTests : Nat

/-- The mutable worker-process state visible to the claims: the `disabled`
flag, the `stopped` flag read by `should_stop`, and `skipped_job_queue`. -/
structure WorkerState where
  disabled : Bool
  stopped : Bool
  skipped : List Job
deriving Repr, DecidableEq

/-- The observable outcome of one loop iteration: the new state, the states
of the messages passed to `status_update` (in order), the `runjob` calls
actually made as (test index, attempt) pairs, the emails sent, and whether
the iteration returned from `loop`. -/
structure StepOutcome where
  st : WorkerState
  emitted : List PState
  testsRun : List (Nat × Nat)
  emails : List (String × String)
  exited : Bool
deriving Repr, DecidableEq

/-- The `while not self.disabled and attempts < 2` retry loop around
`t.runjob(job)` for a single test: each attempt increments `attempts` and
calls `runjob`; on an exception it calls `recover_phone` and retries,
otherwise it breaks.  Returns the updated disabled flag, the recorded runs
and the accumulated emails. -/
def attemptLoop (phoneid : String) (env : WorkerEnv) (tIdx : Nat)
    (disabled : Bool) (attempts : Nat) (runs : List (Nat × Nat))
    (emails : List (String × String)) :
    Bool × List (Nat × Nat) × List (String × String) :=
  if disabled then (disabled, runs, emails)
  else if _h : attempts < 2 then
    let runs2 := runs ++ [(tIdx, attempts + 1)]
    if env.throwsAt tIdx (attempts + 1) then
      let r := recover_phone phoneid env.sutOpens disabled
      attemptLoop phoneid env tIdx r.disabled (attempts + 1) runs2
        (emails ++ r.emails)
    else (disabled, runs2, emails)
  else (disabled, runs, emails)
termination_by 2 - attempts
decreasing_by simp_wf; omega

/-- The `for t in self.tests` loop: per test, sleep 30 s (not observable),
run the attempt loop, then `if self.should_stop(): return`.  Returns the
updated state, runs, emails and whether `loop` returned early. -/
def testsLoop (phoneid : String) (env : WorkerEnv) (idxs : List Nat)
    (st : WorkerState) (runs : List (Nat × Nat))
    (emails : List (String × String)) :
    WorkerState × List (Nat × Nat) × List (String × String) × Bool :=
  match idxs with
  | [] => (st, runs, emails, false)
  | tIdx :: rest =>
    let r := attemptLoop phoneid env tIdx st.disabled 0 runs emails
    let st2 := { st with disabled := r.1 }
    if st2.stopped then (st2, r.2.1, r.2.2, true)
    else testsLoop phoneid env rest st2 r.2.1 r.2.2

/-- The `request[0] == 'job'` branch for a truthy job, reached only when
`should_stop()` returned false: if `disabled`, append the job to
`skipped_job_queue`; otherwise emit `INSTALLING`, install (on failure log
and continue), run the tests, and finally emit `DISCONNECTED` if the worker
became disabled. -/
def processJob (phoneid : String) (env : WorkerEnv) (st : WorkerState)
    (j : Job) : StepOutcome :=
  if st.disabled then
    { st := { st with skipped := st.skipped ++ [j] },
      emitted := [], testsRun := [], emails := [], exited := false }
  else if env.installOk = false then
    { st := st, emitted := [PState.installing], testsRun := [], emails := [],
      exited := false }
  else
    let r := testsLoop phoneid env (List.range env.numTests) st [] []
    if r.2.2.2 then
      { st := r.1, emitted := [PState.installing], testsRun := r.2.1,
        emails := r.2.2.1, exited := true }
    else if r.1.disabled then
      { st := r.1, emitted := [PState.installing, PState.disconnected],
        testsRun := r.2.1, emails := r.2.2.1, exited := false }
    else
      { st := r.1, emitted := [PState.installing], testsRun := r.2.1,
        emails := r.2.2.1, exited := false }

/-- One iteration of `PhoneWorker.loop`.  On `Queue.Empty` the heartbeat
probes adb and emits `IDLE` or `DISCONNECTED`; then `should_stop()` is
checked; a falsy request merely continues; a job request is processed by
`processJob`; a reboot request emits `REBOOTING`, reboots through the SUT
agent and emits `IDLE` with detail "phone reset". -/
def workerStep (phoneid : String) (env : WorkerEnv) (st : WorkerState)
    (c : WCommand) : StepOutcome :=
  match c with
  | WCommand.timeout =>
    { st := st,
      emitted := [if env.adbResponds then PState.idle else PState.disconnected],
      testsRun := [], emails := [], exited := st.stopped }
  | WCommand.sentinelCmd =>
    { st := st, emitted := [], testsRun := [], emails := [],
      exited := st.stopped }
  | WCommand.jobCmd none =>
    { st := st, emitted := [], testsRun := [], emails := [],
      exited := st.stopped }
  | WCommand.jobCmd (some j) =>
    if st.stopped then
      { st := st, emitted := [], testsRun := [], emails := [], exited := true }
    else processJob phoneid env st j
  | WCommand.rebootCmd =>
    if st.stopped then
      { st := st, emitted := [], testsRun := [], emails := [], exited := true }
    else
      { st := st, emitted := [PState.rebooting, PState.idle], testsRun := [],
        emails := [], exited := false }

/-- Running the loop over a sequence of iterations: once an iteration
returns from `loop`, no further iterations are executed.  Returns the final
state, all emitted states and all `runjob` calls. -/
def workerRun (phoneid : String) (st : WorkerState) :
    List (WorkerEnv × WCommand) →
      WorkerState × List PState × List (Nat × Nat)
  | [] => (st, [], [])
  | (env, c) :: rest =>
    let o := workerStep phoneid env st c
    if o.exited then (o.st, o.emitted, o.testsRun)
    else
      let r := workerRun phoneid o.st rest
      (r.1, o.emitted ++ r.2.1, o.testsRun ++ r.2.2)

/-- `PhoneWorker.stop`: sets the `stopped` flag under the lock and enqueues
the `None` sentinel; returns the new state and the enqueued command. -/
def PhoneWorker.stop (st : WorkerState) : WorkerState × WCommand :=
  ({ st with stopped := true }, WCommand.sentinelCmd)

/-- States a disabled worker can still emit: the heartbeat's `IDLE` /
`DISCONNECTED` and the reboot command's `REBOOTING` / `IDLE`. -/
def heartbeatOrReboot (s : PState) : Bool :=
  s == PState.idle || s == PState.disconnected || s == PState.rebooting

theorem workerStep_disabled (phoneid : String) (env : WorkerEnv)
    (st : WorkerState) (c : WCommand) (hd : st.disabled = true) :
    (workerStep phoneid env st c).st.disabled = true ∧
    (workerStep phoneid env st c).testsRun = [] ∧
    (workerStep phoneid env st c).emitted.all heartbeatOrReboot = true := by
  cases c with
  | timeout =>
    refine ⟨hd, rfl, ?_⟩
    cases henv : env.adbResponds <;> simp [workerStep, henv, heartbeatOrReboot]
  | sentinelCmd => exact ⟨hd, rfl, rfl⟩
  | jobCmd j =>
    cases j with
    | none => exact ⟨hd, rfl, rfl⟩
    | some j =>
      cases hstop : st.stopped with
      | true => simp [workerStep, hstop, hd]
      | false => simp [workerStep, hstop, processJob, hd]
  | rebootCmd =>
    cases hstop : st.stopped with
    | true => simp [workerStep, hstop, hd]
    | false => simp [workerStep, hstop, heartbeatOrReboot, hd]

theorem workerRun_disabled (phoneid : String)
    (steps : List (WorkerEnv × WCommand)) :
    ∀ st : WorkerState, st.disabled = true →
      (workerRun phoneid st steps).1.disabled = true ∧
      (workerRun phoneid st steps).2.2 = [] ∧
      (workerRun phoneid st steps).2.1.all heartbeatOrReboot = true := by
  induction steps with
  | nil => intro st hd; exact ⟨hd, rfl, rfl⟩
  | cons sc rest ih =>
    intro st hd
    obtain ⟨env, c⟩ := sc
    obtain ⟨h1, h2, h3⟩ := workerStep_disabled phoneid env st c hd
    obtain ⟨g1, g2, g3⟩ := ih (workerStep phoneid env st c).st h1
    by_cases he : (workerStep phoneid env st c).exited = true
    · simp only [workerRun, he, if_true]
      exact ⟨h1, h2, h3⟩
    · have hb : (workerStep phoneid env st c).exited = false :=
        Bool.not_eq_true _ ▸ he
      refine ⟨?_, ?_, ?_⟩ <;>
        simp [workerRun, hb, h2, g2, g1, List.all_append, h3, g3]

/-- C1 (amended): once the recovery protocol sets the `disabled` flag, the
flag is never cleared for the remainder of the worker process's lifetime,
the worker never executes a test run, and every truthy Job command it
dequeues while the stop flag is clear is appended to `skipped_job_queue`
with no status message emitted for it.  However, the worker may still emit
heartbeat `IDLE` / `DISCONNECTED` messages on a queue timeout and
`REBOOTING` then `IDLE` on a reboot command (and it never emits a
`DISABLED`-state message at all), so its emissions are not limited to
`DISABLED` and `DISCONNECTED`. -/
theorem disabled_is_sticky (phoneid : String)
    (steps : List (WorkerEnv × WCommand)) (st : WorkerState)
    (hd : st.disabled = true) :
    (workerRun phoneid st steps).1.disabled = true ∧
    (workerRun phoneid st steps).2.2 = [] ∧
    (workerRun phoneid st steps).2.1.all heartbeatOrReboot = true ∧
    (∀ (env : WorkerEnv) (j : Job), st.stopped = false →
      (workerStep phoneid env st (WCommand.jobCmd (some j))).st.skipped =
        st.skipped ++ [j] ∧
      (workerStep phoneid env st (WCommand.jobCmd (some j))).emitted = []) := by
  obtain ⟨h1, h2, h3⟩ := workerRun_disabled phoneid steps st hd
  exact ⟨h1, h2, h3, fun env j hs => by
    constructor <;> simp [workerStep, hs, processJob, hd]⟩

/-- A fixed benign environment for concrete instantiations. -/
def env0 : WorkerEnv :=
  { adbResponds := true, installOk := true, throwsAt := fun _ _ => false,
    sutOpens := fun _ _ => false, numTests := 0 }

/-- A worker state just after recovery gave up: disabled, not stopping. -/
def disabledSt : WorkerState :=
  { disabled := true, stopped := false, skipped := [] }

/-- Concrete instantiation of `disabled_is_sticky`: a disabled worker fed a
heartbeat, a reboot command and a job keeps the flag, runs no test, and
emits only heartbeat/reboot states. -/
theorem disabled_is_sticky_witness :
    disabledSt.disabled = true ∧
    (workerRun "p" disabledSt
      [(env0, WCommand.timeout), (env0, WCommand.rebootCmd),
       (env0, WCommand.jobCmd (some
         { buildurl := "http://x/foo.apk", blddate := "1700000000",
           revision := "", androidprocname := "", version := "",
           bldtype := "" }))]).1.disabled = true := by
  have h := disabled_is_sticky "p"
    [(env0, WCommand.timeout), (env0, WCommand.rebootCmd),
     (env0, WCommand.jobCmd (some
       { buildurl := "http://x/foo.apk", blddate := "1700000000",
         revision := "", androidprocname := "", version := "",
         bldtype := "" }))] disabledSt rfl
  exact ⟨rfl, h.1⟩

/-- C1 counterexample: a disabled (not stopping) worker that dequeues a
reboot command emits `REBOOTING` and then `IDLE`, so it is false that a
disabled worker only ever emits states in {`DISABLED`, `DISCONNECTED`}. -/
theorem disabled_emits_beyond_disabled_disconnected :
    ¬ ((workerStep "p" env0 disabledSt WCommand.rebootCmd).emitted.all
        (fun s => s == PState.disabledState || s == PState.disconnected)
      = true) := by
  decide

/-- C7 (amended): the loop exits whenever the stop flag is observed set at
the post-dequeue check, whatever was dequeued; dequeuing the sentinel which
`PhoneWorker.stop` enqueues after setting the flag therefore exits; but the
`Shutdown` sentinel alone, with the stop flag clear, only makes the loop
`continue` to the next iteration. -/
theorem shutdown_exit_conditions (phoneid : String) (env : WorkerEnv)
    (st : WorkerState) (c : WCommand) :
    (st.stopped = true → (workerStep phoneid env st c).exited = true) ∧
    (workerStep phoneid env (PhoneWorker.stop st).1
      (PhoneWorker.stop st).2).exited = true ∧
    (st.stopped = false →
      (workerStep phoneid env st WCommand.sentinelCmd).exited = false) := by
  refine ⟨fun hs => ?_, rfl, fun hs => ?_⟩
  · cases c with
    | timeout => simp [workerStep, hs]
    | sentinelCmd => simp [workerStep, hs]
    | jobCmd j => cases j <;> simp [workerStep, hs]
    | rebootCmd => simp [workerStep, hs]
  · simp [workerStep, hs]

/-- Concrete instantiation of `shutdown_exit_conditions` at a fresh worker
state. -/
theorem shutdown_exit_conditions_witness :
    (workerStep "p" env0
      (PhoneWorker.stop { disabled := false, stopped := false, skipped := [] }).1
      (PhoneWorker.stop { disabled := false, stopped := false, skipped := [] }).2).exited
      = true ∧
    (workerStep "p" env0 { disabled := false, stopped := false, skipped := [] }
      WCommand.sentinelCmd).exited = false := by
  have h := shutdown_exit_conditions "p" env0
    { disabled := false, stopped := false, skipped := [] } WCommand.sentinelCmd
  exact ⟨h.2.1, h.2.2 rfl⟩

/-- C7 counterexample: dequeuing the `None` shutdown sentinel alone, with
the stop flag clear, does not terminate the loop — the code's
`if not request: continue` merely proceeds to the next iteration. -/
theorem sentinel_alone_does_not_exit :
    (workerStep "p" env0 { disabled := false, stopped := false, skipped := [] }
      WCommand.sentinelCmd).exited = false := by
  decide

/-- An environment in which the driver's install call fails. -/
def envInstallFail : WorkerEnv :=
  { adbResponds := true, installOk := false, throwsAt := fun _ _ => false,
    sutOpens := fun _ _ => false, numTests := 1 }

/-- C8: when the build install fails, the worker — having already emitted
`INSTALLING` — logs at ERROR and continues to the next command: no test is
run for that job, no further status message is emitted for it, and the job
is abandoned with no retry and no state change. -/
theorem install_failure_abandons_job (phoneid : String) (env : WorkerEnv)
    (st : WorkerState) (j : Job) (hd : st.disabled = false)
    (hs : st.stopped = false) (hi : env.installOk = false) :
    workerStep phoneid env st (WCommand.jobCmd (some j)) =
      { st := st, emitted := [PState.installing], testsRun := [],
        emails := [], exited := false } := by
  simp [workerStep, hs, processJob, hd, hi]

/-- Concrete instantiation of `install_failure_abandons_job`. -/
theorem install_failure_abandons_job_witness :
    ({ disabled := false, stopped := false, skipped := [] } :
        WorkerState).disabled = false ∧
    envInstallFail.installOk = false ∧
    workerStep "p" envInstallFail
        { disabled := false, stopped := false, skipped := [] }
        (WCommand.jobCmd (some
          { buildurl := "http://x/foo.apk", blddate := "1700000000",
            revision := "", androidprocname := "", version := "",
            bldtype := "" })) =
      { st := { disabled := false, stopped := false, skipped := [] },
        emitted := [PState.installing], testsRun := [], emails := [],
        exited := false } :=
  ⟨rfl, rfl,
   install_failure_abandons_job "p" envInstallFail
     { disabled := false, stopped := false, skipped := [] }
     { buildurl := "http://x/foo.apk", blddate := "1700000000",
       revision := "", androidprocname := "", version := "", bldtype := "" }
     rfl rfl rfl⟩

/-! ## C6: enqueue on a full queue -/

/-- A full job queue (capacity 1, one item). -/
def fullJobQueue : MPQueue QItem :=
  { maxsize := 1, items := [QItem.sentinel] }

/-- A full status queue (capacity 1, one message). -/
def fullStatusQueue : MPQueue StatusMsg :=
  { maxsize := 1,
    items := [{ phoneid := "p", status := PState.idle, timestamp := 0,
                build := none, detail := none }] }

/-- C6 counterexample: on a full command queue, `add_job` and `reboot` do
not drop the command with a warning — the `Queue.Full` exception propagates
to the caller. -/
theorem add_job_full_queue_raises :
    (add_job fullJobQueue
      { buildurl := "http://x/foo.apk", blddate := "1700000000",
        revision := "", androidprocname := "", version := "",
        bldtype := "" }).isOk = false ∧
    (reboot fullJobQueue).isOk = false := by
  decide

/-- C6 (amended): `add_job` and `reboot` enqueue with non-blocking
`put_nowait` but install no exception handler, so on a full queue the
`Queue.Full` exception propagates to the caller and nothing is logged; it
is `status_update` that catches `Queue.Full` and drops the message with a
warning.  (The worker job queue is in fact created unbounded, so its
`put_nowait` never raises.) -/
theorem full_queue_behaviour (q : MPQueue QItem) (sq : MPQueue StatusMsg)
    (j : Job) (m : StatusMsg) (hq : q.full = true) (hsq : sq.full = true) :
    add_job q j = Except.error () ∧
    reboot q = Except.error () ∧
    status_update sq m = (sq, true) := by
  refine ⟨?_, ?_, ?_⟩
  · simp [add_job, put_nowait, hq]
  · simp [reboot, put_nowait, hq]
  · simp [status_update, put_nowait, hsq]

/-- Concrete instantiation of `full_queue_behaviour` at full queues of
capacity one. -/
theorem full_queue_behaviour_witness :
    fullJobQueue.full = true ∧ fullStatusQueue.full = true ∧
    add_job fullJobQueue
        { buildurl := "http://x/foo.apk", blddate := "1700000000",
          revision := "", androidprocname := "", version := "",
          bldtype := "" } = Except.error () ∧
    status_update fullStatusQueue
        { phoneid := "p", status := PState.idle, timestamp := 0,
          build := none, detail := none } = (fullStatusQueue, true) := by
  have h := full_queue_behaviour fullJobQueue fullStatusQueue
    { buildurl := "http://x/foo.apk", blddate := "1700000000",
      revision := "", androidprocname := "", version := "", bldtype := "" }
    { phoneid := "p", status := PState.idle, timestamp := 0,
      build := none, detail := none } rfl rfl
  exact ⟨rfl, rfl, h.1, h.2.2⟩

/-! ## Registration (`AutoPhone.register_cmd` / `register_phone`)

The command payload is a URL-encoded form.  `register_cmd` lowercases the
raw string, parses it with `urlparse.parse_qs`, derives the MAC and
`phone_id`, and either registers a new worker (persisting the cache) or
logs that the phone is already known.  The Python string and query-string
primitives used are modelled below over `List Char`. -/

/-- Python `str.lower()` on ASCII input. -/
def pyLower (s : String) : String :=
  String.mk (s.data.map Char.toLower)

/-- Python `str.upper()` on ASCII input. -/
def pyUpper (s : String) : String :=
  String.mk (s.data.map Char.toUpper)

/-- Python `str.replace(':', '_')`, used on the MAC taken from `name`. -/
def pyReplaceColon (s : String) : String :=
  String.mk (s.data.map (fun c => if c == ':' then '_' else c))

def isHexDigitChar (c : Char) : Bool :=
  c.isDigit || ('a' ≤ c && c ≤ 'f') || ('A' ≤ c && c ≤ 'F')

def hexVal (c : Char) : Nat :=
  if c.isDigit then c.toNat - '0'.toNat
  else if 'a' ≤ c && c ≤ 'f' then c.toNat - 'a'.toNat + 10
  else c.toNat - 'A'.toNat + 10

/-- `urllib.unquote`: decode `%XX` escapes; an invalid escape leaves the
percent sign in place. -/
def unquoteChars : List Char → List Char
  | [] => []
  | '%' :: a :: b :: rest =>
    if isHexDigitChar a && isHexDigitChar b then
      Char.ofNat (16 * hexVal a + hexVal b) :: unquoteChars rest
    else '%' :: unquoteChars (a :: b :: rest)
  | c :: rest => c :: unquoteChars rest

/-- Split a character list on a separator character (Python `str.split`). -/
def splitOnChar (sep : Char) : List Char → List (List Char)
  | [] => [[]]
  | c :: rest =>
    let r := splitOnChar sep rest
    if c == sep then [] :: r
    else
      match r with
      | [] => [[c]]
      | g :: gs => (c :: g) :: gs

/-- Python `str.split('=', 1)`: split at the first `=`, or `none` when no
`=` occurs (in which case `parse_qsl` skips the pair). -/
def splitFirstEq : List Char → Option (List Char × List Char)
  | [] => none
  | c :: rest =>
    if c == '=' then some ([], rest)
    else (splitFirstEq rest).map (fun p => (c :: p.1, p.2))

/-- `'+'` is replaced by a space before unquoting. -/
def plusToSpace (cs : List Char) : List Char :=
  cs.map (fun c => if c == '+' then ' ' else c)

/-- `urlparse.parse_qsl` with default options: split the query on `&` and
`;`, drop pairs without `=` or with an empty value, and unquote names and
values. -/
def parse_qsl (qs : String) : List (String × String) :=
  (((splitOnChar '&' qs.data).map (splitOnChar ';')).flatten).filterMap
    (fun nv =>
      match splitFirstEq nv with
      | none => none
      | some (n, v) =>
        match v with
        | [] => none
        | _ =>
          some (String.mk (unquoteChars (plusToSpace n)),
                String.mk (unquoteChars (plusToSpace v))))

def qsInsert (acc : List (String × List String)) (k v : String) :
    List (String × List String) :=
  if acc.any (fun p => p.1 == k) then
    acc.map (fun p => if p.1 == k then (p.1, p.2 ++ [v]) else p)
  else acc ++ [(k, [v])]

/-- `urlparse.parse_qs`: group the pairs of `parse_qsl` into a dictionary
of value lists. -/
def parse_qs (qs : String) : List (String × List String) :=
  (parse_qsl qs).foldl (fun acc p => qsInsert acc p.1 p.2) []

/-- `data[k][0]`: the first value stored under `k`, or `none` where the
Python raises `KeyError`. -/
def qsGet (q : List (String × List String)) (k : String) : Option String :=
  match q.lookup k with
  | some (v :: _) => some v
  | _ => none

/-- A phone configuration as built by `register_cmd`
(`phoneid, serial, ip, sutcmdport, machinetype, osver`). -/
structure PhoneCfg where
  phoneid : String
  serial : String
  ip : String
  sutcmdport : String
  machinetype : String
  osver : String
deriving Repr, DecidableEq

/-- The coordinator state touched by registration: the fleet map
`phone_workers` (an insertion-ordered dictionary keyed by `phone_id`), the
cache-file contents written by `update_phone_cache`, the number of cache
rewrites, the phones whose worker was created and started, and whether the
error path called `self.stop()`. -/
structure FleetState where
  workers : List (String × PhoneCfg)
  cache : List PhoneCfg
  cacheWrites : Nat
  started : List String
  stopped : Bool
deriving Repr, DecidableEq

/-- Python dict assignment `d[k] = v`: replace in place or append. -/
def dictSet (m : List (String × PhoneCfg)) (k : String) (v : PhoneCfg) :
    List (String × PhoneCfg) :=
  if m.any (fun p => p.1 == k) then
    m.map (fun p => if p.1 == k then (k, v) else p)
  else m ++ [(k, v)]

/-- `AutoPhone.register_phone`: create a worker, insert it into
`phone_workers` under its `phone_id`, and start it. -/
def register_phone (st : FleetState) (cfg : PhoneCfg) : FleetState :=
  { st with workers := dictSet st.workers cfg.phoneid cfg,
            started := st.started ++ [cfg.phoneid] }

/-- `AutoPhone.update_phone_cache`: rewrite the cache file with the current
`phone_cfg`s. -/
def update_phone_cache (st : FleetState) : FleetState :=
  { st with cache := st.workers.map Prod.snd,
            cacheWrites := st.cacheWrites + 1 }

/-- `AutoPhone.register_cmd`: lowercase and parse the form; derive the MAC
(`data['name'][0]` with `:` replaced by `_`) and
`phoneid = "{mac}_{hardware}"`; if the phone is unknown, build its config
(note `serial = data['pool'][0].upper()`), register it and persist the
cache; if known, log only.  A missing key raises `KeyError`, caught by the
bare `except` which calls `self.stop()`. -/
def register_cmd (st : FleetState) (data : String) : FleetState :=
  let q := parse_qs (pyLower data)
  match qsGet q "name", qsGet q "hardware" with
  | some nm, some hw =>
    let macaddr := pyReplaceColon nm
    let phoneid := macaddr ++ "_" ++ hw
    if st.workers.any (fun p => p.1 == phoneid) then st
    else
      match qsGet q "pool", qsGet q "ipaddr", qsGet q "cmdport",
            qsGet q "os" with
      | some pool, some ip, some port, some osv =>
        let cfg : PhoneCfg :=
          { phoneid := phoneid, serial := pyUpper pool, ip := ip,
            sutcmdport := port, machinetype := hw, osver := osv }
        update_phone_cache (register_phone st cfg)
      | _, _, _, _ => { st with stopped := true }
  | _, _ => { st with stopped := true }

/-- The empty coordinator state at startup (no phones, truncated cache). -/
def fleet0 : FleetState :=
  { workers := [], cache := [], cacheWrites := 0, started := [],
    stopped := false }

/-- The registration payload of scenario S5. -/
def s5data : String :=
  "name=AA%3ABB%3A01&hardware=nexus4&pool=serial1&ipaddr=10.0.0.5&cmdport=20701&os=4.4"

/-- C4: two register commands carrying identical `name` and `hardware`
values (the second possibly differing elsewhere) create exactly one worker:
starting from a fleet with no worker under the derived `phone_id`, the
first command creates and starts one worker and rewrites the cache, the
fleet map then holds exactly one worker for that `phone_id`, and the second
command only logs, mutating neither the fleet map nor the cache file. -/
theorem register_cmd_idempotent (d1 d2 : String) (st : FleetState)
    (nm hw pool ip port osv : String)
    (hn1 : qsGet (parse_qs (pyLower d1)) "name" = some nm)
    (hh1 : qsGet (parse_qs (pyLower d1)) "hardware" = some hw)
    (hp1 : qsGet (parse_qs (pyLower d1)) "pool" = some pool)
    (hi1 : qsGet (parse_qs (pyLower d1)) "ipaddr" = some ip)
    (hc1 : qsGet (parse_qs (pyLower d1)) "cmdport" = some port)
    (ho1 : qsGet (parse_qs (pyLower d1)) "os" = some osv)
    (hn2 : qsGet (parse_qs (pyLower d2)) "name" = some nm)
    (hh2 : qsGet (parse_qs (pyLower d2)) "hardware" = some hw)
    (hfresh : st.workers.any
      (fun p => p.1 == pyReplaceColon nm ++ "_" ++ hw) = false) :
    register_cmd (register_cmd st d1) d2 = register_cmd st d1 ∧
    (register_cmd st d1).workers.countP
        (fun p => p.1 == pyReplaceColon nm ++ "_" ++ hw) = 1 ∧
    (register_cmd st d1).started =
      st.started ++ [pyReplaceColon nm ++ "_" ++ hw] ∧
    (register_cmd st d1).cacheWrites = st.cacheWrites + 1 ∧
    (register_cmd st d1).cache =
      (register_cmd st d1).workers.map Prod.snd := by
  have e1 : register_cmd st d1 =
      update_phone_cache (register_phone st
        { phoneid := pyReplaceColon nm ++ "_" ++ hw, serial := pyUpper pool,
          ip := ip, sutcmdport := port, machinetype := hw, osver := osv }) := by
    simp only [register_cmd, hn1, hh1, hfresh, hp1, hi1, hc1, ho1,
      Bool.false_eq_true, if_false]
  have hdict : dictSet st.workers (pyReplaceColon nm ++ "_" ++ hw)
      { phoneid := pyReplaceColon nm ++ "_" ++ hw, serial := pyUpper pool,
        ip := ip, sutcmdport := port, machinetype := hw, osver := osv } =
      st.workers ++ [(pyReplaceColon nm ++ "_" ++ hw,
        { phoneid := pyReplaceColon nm ++ "_" ++ hw, serial := pyUpper pool,
          ip := ip, sutcmdport := port, machinetype := hw, osver := osv })] := by
    simp only [dictSet, hfresh, Bool.false_eq_true, if_false]
  have hw1 : (register_cmd st d1).workers =
      st.workers ++ [(pyReplaceColon nm ++ "_" ++ hw,
        { phoneid := pyReplaceColon nm ++ "_" ++ hw, serial := pyUpper pool,
          ip := ip, sutcmdport := port, machinetype := hw, osver := osv })] := by
    rw [e1]
    simp only [update_phone_cache, register_phone]
    exact hdict
  have hany1 : (register_cmd st d1).workers.any
      (fun p => p.1 == pyReplaceColon nm ++ "_" ++ hw) = true := by
    rw [hw1, List.any_append]
    simp
  refine ⟨?_, ?_, ?_, ?_, ?_⟩
  · conv_lhs => rw [register_cmd]
    rw [hn2, hh2]
    simp only [hany1, if_true]
  · rw [hw1, List.countP_append]
    have h0 : st.workers.countP
        (fun p => p.1 == pyReplaceColon nm ++ "_" ++ hw) = 0 := by
      rw [List.countP_eq_zero]
      intro a ha
      have := List.any_eq_false.mp hfresh a ha
      simpa using this
    rw [h0]
    simp
  · rw [e1]
    simp [update_phone_cache, register_phone]
  · rw [e1]
    simp [update_phone_cache, register_phone]
  · rw [e1]
    simp [update_phone_cache, register_phone]

/-- Concrete instantiation of `register_cmd_idempotent`: registering the
S5 payload twice from an empty fleet yields one worker and an unchanged
state on the second command. -/
theorem register_cmd_idempotent_witness :
    qsGet (parse_qs (pyLower s5data)) "name" = some "aa:bb:01" ∧
    fleet0.workers.any
      (fun p => p.1 == pyReplaceColon "aa:bb:01" ++ "_" ++ "nexus4") = false ∧
    register_cmd (register_cmd fleet0 s5data) s5data =
      register_cmd fleet0 s5data ∧
    (register_cmd fleet0 s5data).workers.countP
      (fun p => p.1 == pyReplaceColon "aa:bb:01" ++ "_" ++ "nexus4") = 1 := by
  have h := register_cmd_idempotent s5data s5data fleet0 "aa:bb:01" "nexus4"
    "serial1" "10.0.0.5" "20701" "4.4" rfl rfl rfl rfl rfl rfl rfl rfl rfl
  exact ⟨rfl, rfl, h.1, h.2.1⟩

/-- C5 counterexample: registering the claim's own example payload stores
`serial = "SERIAL1"` — `register_cmd` uppercases `data['pool'][0]` — so it
is false that every form value stored in the new phone configuration is
lowercased. -/
theorem register_stores_uppercased_serial :
    ((register_cmd fleet0 s5data).workers.lookup "aa_bb_01_nexus4").map
        PhoneCfg.serial = some "SERIAL1" ∧
    ¬ ("SERIAL1" = pyLower "SERIAL1") := by
  constructor
  · rfl
  · decide

/-- C5 (amended): `register_cmd` lowercases the raw form string before
parsing it; each `:` in the MAC taken from the decoded `name` value is
replaced with `_` and the stored `phone_id` equals `"{mac}_{hardware}"`;
the stored `serial` is the uppercased `pool` value, and the remaining
stored fields (`ip`, `sutcmdport`, `machinetype`, `osver`) are the decoded
values of the lowercased form unchanged — lowercase except where a
percent-escape decodes to an uppercase character after the lowering.  In
particular `name=AA%3ABB%3A01` with `hardware=nexus4` yields
`phone_id = "aa_bb_01_nexus4"`. -/
theorem register_cmd_stored_fields (d : String) (st : FleetState)
    (nm hw pool ip port osv : String)
    (hn : qsGet (parse_qs (pyLower d)) "name" = some nm)
    (hh : qsGet (parse_qs (pyLower d)) "hardware" = some hw)
    (hp : qsGet (parse_qs (pyLower d)) "pool" = some pool)
    (hi : qsGet (parse_qs (pyLower d)) "ipaddr" = some ip)
    (hc : qsGet (parse_qs (pyLower d)) "cmdport" = some port)
    (ho : qsGet (parse_qs (pyLower d)) "os" = some osv)
    (hfresh : st.workers.any
      (fun p => p.1 == pyReplaceColon nm ++ "_" ++ hw) = false) :
    (register_cmd st d).workers = st.workers ++
      [(pyReplaceColon nm ++ "_" ++ hw,
        { phoneid := pyReplaceColon nm ++ "_" ++ hw, serial := pyUpper pool,
          ip := ip, sutcmdport := port, machinetype := hw,
          osver := osv })] := by
  have e1 : register_cmd st d =
      update_phone_cache (register_phone st
        { phoneid := pyReplaceColon nm ++ "_" ++ hw, serial := pyUpper pool,
          ip := ip, sutcmdport := port, machinetype := hw, osver := osv }) := by
    simp only [register_cmd, hn, hh, hfresh, hp, hi, hc, ho,
      Bool.false_eq_true, if_false]
  rw [e1]
  simp only [update_phone_cache, register_phone]
  simp only [dictSet, hfresh, Bool.false_eq_true, if_false]

/-- Concrete instantiation of `register_cmd_stored_fields` at the S5
payload: the decoded name is `"aa:bb:01"`, the stored config has
`phone_id = "aa_bb_01_nexus4"` and the uppercased serial `"SERIAL1"`. -/
theorem register_cmd_stored_fields_witness :
    qsGet (parse_qs (pyLower s5data)) "name" = some "aa:bb:01" ∧
    qsGet (parse_qs (pyLower s5data)) "pool" = some "serial1" ∧
    fleet0.workers.any
      (fun p => p.1 == pyReplaceColon "aa:bb:01" ++ "_" ++ "nexus4") = false ∧
    (register_cmd fleet0 s5data).workers =
      [("aa_bb_01_nexus4",
        { phoneid := "aa_bb_01_nexus4", serial := "SERIAL1",
          ip := "10.0.0.5", sutcmdport := "20701",
          machinetype := "nexus4", osver := "4.4" })] := by
  have h := register_cmd_stored_fields s5data fleet0 "aa:bb:01" "nexus4"
    "serial1" "10.0.0.5" "20701" "4.4" rfl rfl rfl rfl rfl rfl rfl
  exact ⟨rfl, rfl, rfl, h⟩

/-! ## Dispatcher (`AutoPhone.build_job`) -/

def repoMozillaCentral : String := "http://hg.mozilla.org/mozilla-central"

def repoMozillaAurora : String :=
  "http://hg.mozilla.org/releases/mozilla-aurora"

def repoMozillaBeta : String := "http://hg.mozilla.org/releases/mozilla-beta"

/-- A build event from the pulse monitor, as used by `build_job`
(`msg['buildurl']`, `msg['builddate']`); `on_build` dispatches only events
containing a `buildurl`. -/
structure BuildMsg where
  buildurl : String
  builddate : String
deriving Repr, DecidableEq

/-- The `[App]` section of the artifact's `application.ini`
(`SourceStamp`, `Version`, `SourceRepository`), read by `build_job`. -/
structure AppIni where
  sourceStamp : String
  version : String
  sourceRepository : String
deriving Repr, DecidableEq

/-- The repository-to-process-name chain of `build_job`: the repositories
are identified by their canonical hg URLs, and any other repository leaves
`procname` empty. -/
def procnameFor (repo : String) : String :=
  if repo == repoMozillaCentral then "org.mozilla.fennec"
  else if repo == repoMozillaAurora then "org.mozilla.fennec_aurora"
  else if repo == repoMozillaBeta then "org.mozilla.firefox"
  else ""

/-- `AutoPhone.build_job`: build the job dictionary from the event and the
extracted `application.ini` fields, with `bldtype = 'opt'`. -/
def build_job (msg : BuildMsg) (ini : AppIni) : Job :=
  { buildurl := msg.buildurl, blddate := msg.builddate,
    revision := ini.sourceStamp,
    androidprocname := procnameFor ini.sourceRepository,
    version := ini.version, bldtype := "opt" }

/-- C9: for every build event with a `buildurl`, the job built by
`build_job` has android process name `org.mozilla.fennec` when the
artifact's `SourceRepository` is the mozilla-central repository,
`org.mozilla.fennec_aurora` for mozilla-aurora, `org.mozilla.firefox` for
mozilla-beta, and the empty string for any other repository; its build
type is always "opt" and its `buildurl` and `builddate` are copied
unchanged from the event. -/
theorem build_job_spec (msg : BuildMsg) (ini : AppIni) :
    (build_job msg ini).androidprocname =
      (if ini.sourceRepository = repoMozillaCentral then "org.mozilla.fennec"
       else if ini.sourceRepository = repoMozillaAurora then
         "org.mozilla.fennec_aurora"
       else if ini.sourceRepository = repoMozillaBeta then
         "org.mozilla.firefox"
       else "") ∧
    (build_job msg ini).bldtype = "opt" ∧
    (build_job msg ini).buildurl = msg.buildurl ∧
    (build_job msg ini).blddate = msg.builddate := by
  refine ⟨?_, rfl, rfl, rfl⟩
  simp only [build_job, procnameFor, beq_iff_eq]

end AutoPhoneModel
